import Mathlib

/-!
Verification of the upload/result controller in `static/js/main.js` of the
bom-extractor repository.  The JavaScript functions are shallowly embedded as
pure Lean functions; browser DOM state (section visibility, text content,
CSS classes, the current file selection) is modelled as an explicit record
that each handler transforms.
-/

namespace BomExtractor

/-- A scalar JSON value as it can appear in a BOM record.  JavaScript
distinguishes `null` (a present null field) from `undefined` (a missing
field); the latter is modelled by `Option.none` at lookup sites. -/
inductive JVal where
  | null : JVal
  | str (s : String) : JVal
  | num (n : Int) : JVal
  | bool (b : Bool) : JVal

/-- One extracted BOM record: an object modelled as its ordered list of
key/value fields (`Object.keys` order is insertion order). -/
abbrev Item := List (String × JVal)

/-- `item[key]`: `none` models JavaScript `undefined` (key absent). -/
def lookup (it : Item) (k : String) : Option JVal :=
  (it.find? (fun p => decide (p.1 = k))).map Prod.snd

/-- JavaScript `String(v)` on a scalar value. -/
def jsString : JVal → String
  | JVal.null => "null"
  | JVal.str s => s
  | JVal.num n => toString n
  | JVal.bool b => cond b "true" "false"

/-- The string the code passes to `escapeHtml` for one cell:
`item[key] !== null && item[key] !== undefined ? item[key] : '-'`
followed by `String(value)`. -/
def cellValue (it : Item) (k : String) : String :=
  match lookup it k with
  | some JVal.null => "-"
  | none => "-"
  | some v => jsString v

/-- HTML text-node escaping of a single character: the serialization the DOM
applies when `escapeHtml` round-trips a string through
`div.textContent = text; return div.innerHTML` (escapes the markup-significant
characters ampersand, less-than and greater-than). -/
def escChar (c : Char) : List Char :=
  if c = '&' then ['&', 'a', 'm', 'p', ';']
  else if c = '<' then ['&', 'l', 't', ';']
  else if c = '>' then ['&', 'g', 't', ';']
  else [c]

/-- Escape every character of a character list. -/
def escList (l : List Char) : List Char :=
  (l.map escChar).flatten

/-- The `escapeHtml` function of `main.js` (DOM text-node escaping). -/
def escapeHtml (t : String) : String :=
  String.mk (escList t.toList)

/-- JavaScript `key.split(sep)` for a one-character separator. -/
def splitOnChar (sep : Char) : List Char → List (List Char)
  | [] => [[]]
  | c :: cs =>
    if c = sep then [] :: splitOnChar sep cs
    else
      match splitOnChar sep cs with
      | [] => [[c]]
      | w :: ws => (c :: w) :: ws

/-- JavaScript `w.charAt(i)`: the one-character string at index `i`, or the
empty string when out of range. -/
def jsCharAt (w : List Char) (i : Nat) : List Char :=
  (w.drop i).take 1

/-- JavaScript `w.slice(1)`. -/
def jsSlice1 (w : List Char) : List Char :=
  w.drop 1

/-- The `formatHeader` function of `main.js`:
`key.split('_').map(word => word.charAt(0).toUpperCase() + word.slice(1)).join(' ')`. -/
def formatHeader (key : String) : String :=
  String.mk (List.intercalate [' ']
    ((splitOnChar '_' key.toList).map
      (fun w => (jsCharAt w 0).map Char.toUpper ++ jsSlice1 w)))

/-- Capitalisation as the spec words it: the first letter of a segment is
capitalised, the rest kept. -/
def specCapitalize (w : List Char) : List Char :=
  match w with
  | [] => []
  | c :: cs => c.toUpper :: cs

/-- Header formatting as the spec words it: split the key on underscores,
capitalise the first letter of each segment, join with single spaces. -/
def specFormatHeader (key : String) : String :=
  String.mk (List.intercalate [' ']
    ((splitOnChar '_' key.toList).map specCapitalize))

/-- Concatenation of a list of strings (in order). -/
def strConcat : List String → String
  | [] => ""
  | s :: r => s ++ strConcat r

/-- The `createTable` function of `main.js`, accumulating the HTML string in
exactly the order of the JavaScript `+=` statements.  The column keys are
taken from the first item only (`Object.keys(items[0])`). -/
def createTable (items : List Item) : String :=
  match items with
  | [] => "<p>No items found</p>"
  | it0 :: rest =>
    ((it0 :: rest).foldl
      (fun h it =>
        ((it0.map Prod.fst).foldl
          (fun h2 k => h2 ++ ("<td>" ++ escapeHtml (cellValue it k) ++ "</td>"))
          (h ++ "<tr>"))
        ++ "</tr>")
      (((it0.map Prod.fst).foldl
          (fun h k => h ++ ("<th>" ++ formatHeader k ++ "</th>"))
          "<table><thead><tr>")
        ++ "</tr></thead><tbody>"))
    ++ "</tbody></table>"

/-- One header cell, as produced inside the first `forEach` of `createTable`.
Note the key is formatted but not HTML-escaped. -/
def renderHeaderCell (k : String) : String :=
  "<th>" ++ formatHeader k ++ "</th>"

/-- One data cell, as produced inside the nested `forEach` of `createTable`. -/
def renderCell (it : Item) (k : String) : String :=
  "<td>" ++ escapeHtml (cellValue it k) ++ "</td>"

/-- One table row: the cells for the given column keys, in order. -/
def renderRow (keys : List String) (it : Item) : String :=
  "<tr>" ++ strConcat (keys.map (renderCell it)) ++ "</tr>"

/-- The structured form of the table HTML: header cells for the column keys,
then one row per item, each row using the same column keys. -/
def tableHtml (keys : List String) (items : List Item) : String :=
  "<table><thead><tr>" ++ strConcat (keys.map renderHeaderCell)
    ++ "</tr></thead><tbody>" ++ strConcat (items.map (renderRow keys))
    ++ "</tbody></table>"

/-- `n` occurs contiguously inside `h`. -/
def occursIn (n h : List Char) : Prop :=
  ∃ p q, h = p ++ n ++ q

/-- A file from a picker change event or a drop event: its name and MIME
type are the only attributes the controller reads. -/
structure JFile where
  name : String
  type : String

/-- The `data` object of a successful extraction response, per the HTTP
contract: `{ items, total_items?, bom_type, document_title? }`. -/
structure BomData where
  items : List Item
  total_items : Option Nat
  bom_type : String
  document_title : Option String

/-- The `files` object of the response: identifiers for the two download
artifacts. -/
structure FilesObj where
  json : String
  csv : String

/-- A parsed JSON response body, per the HTTP contract
`{ success: bool, data, files, error? }`. -/
structure ResponseBody where
  success : Bool
  error : Option String
  data : BomData
  files : FilesObj

/-- Outcome of the awaited `fetch('/upload')` plus `response.json()`:
either a thrown error (network failure or JSON parse rejection), or a
completed response with its HTTP-status `ok` flag and parsed body. -/
inductive FetchOutcome where
  | thrown (msg : String) : FetchOutcome
  | completed (ok : Bool) (body : ResponseBody) : FetchOutcome

/-- The DOM state the controller reads and writes: the `style.display` of
the three sections, the error text, the current selection and its display,
the submit-button loading sub-state, the summary texts, the rendered table
HTML and the bound download targets. -/
structure UIState where
  uploadDisplay : String
  resultsDisplay : String
  errorDisplay : String
  errorMessage : String
  currentFiles : Option (List JFile)
  fileNameText : String
  hasFileClass : Bool
  submitDisabled : Bool
  btnTextDisplay : String
  btnLoaderDisplay : String
  totalItemsText : String
  bomTypeText : String
  documentTitleText : String
  tableHTML : String
  downloadJsonTarget : String
  downloadCsvTarget : String

/-- The `showError` function of `main.js`: error section shown with the
message, upload and results sections hidden. -/
def showError (message : String) (s : UIState) : UIState :=
  { s with errorDisplay := "block", errorMessage := message,
           uploadDisplay := "none", resultsDisplay := "none" }

/-- The `hideError` function of `main.js`. -/
def hideError (s : UIState) : UIState :=
  { s with errorDisplay := "none" }

/-- The `setLoading` function of `main.js`: toggles the submit-button label,
spinner and disabled flag. -/
def setLoading (loading : Bool) (s : UIState) : UIState :=
  if loading then
    { s with btnTextDisplay := "none", btnLoaderDisplay := "flex",
             submitDisabled := true }
  else
    { s with btnTextDisplay := "block", btnLoaderDisplay := "none",
             submitDisabled := false }

/-- The `resetForm` function of `main.js`: back to the upload view, the
selection cleared. -/
def resetForm (s : UIState) : UIState :=
  { s with uploadDisplay := "block", resultsDisplay := "none",
           errorDisplay := "none",
           fileNameText := "Choose PDF file or drag & drop",
           hasFileClass := false, currentFiles := none }

/-- The `handleFileSelect` function of `main.js`: empty list does nothing;
a first file of MIME type application/pdf becomes the selection; any other
first file only surfaces an error. -/
def handleFileSelect (files : List JFile) (s : UIState) : UIState :=
  match files with
  | [] => s
  | f :: _ =>
    if f.type = "application/pdf" then
      { s with currentFiles := some files, fileNameText := f.name,
               hasFileClass := true }
    else
      showError "Please select a PDF file" s

/-- JavaScript number truthiness for `a || b` on an optional count:
an absent or zero value falls through to the default. -/
def jsOrNat (o : Option Nat) (d : Nat) : Nat :=
  match o with
  | some n => if n = 0 then d else n
  | none => d

/-- JavaScript string truthiness for `a || b` on an optional string:
an absent or empty value falls through to the default. -/
def jsOrStr (o : Option String) (d : String) : String :=
  match o with
  | some t => if t = "" then d else t
  | none => d

/-- JavaScript `s.toUpperCase()` (ASCII). -/
def jsToUpper (s : String) : String :=
  String.mk (s.toList.map Char.toUpper)

/-- The `displayResults` function of `main.js`: hides the upload section,
shows the results section (the error section is not touched), fills the
summary fields with the JavaScript `||` fallbacks, renders the table and
binds the two download targets. -/
def displayResults (result : ResponseBody) (s : UIState) : UIState :=
  { s with uploadDisplay := "none", resultsDisplay := "block",
           totalItemsText :=
             toString (jsOrNat result.data.total_items result.data.items.length),
           bomTypeText := jsToUpper result.data.bom_type,
           documentTitleText :=
             jsOrStr result.data.document_title "BOM Document",
           tableHTML := createTable result.data.items,
           downloadJsonTarget := "/download/json/" ++ result.files.json,
           downloadCsvTarget := "/download/csv/" ++ result.files.csv }

/-- The submit handler of `main.js`.  Returns the new DOM state together
with the multipart request that was issued, if any: `none` models that no
`POST /upload` was performed, `some (file, bomType)` models one request
carrying the first selected file and the selected processing mode.  The
`finally` block is mirrored by applying `setLoading false` on every path
that entered the loading sub-state. -/
def submitHandler (bomType : String) (outcome : FetchOutcome) (s : UIState) :
    UIState × Option (JFile × String) :=
  match s.currentFiles with
  | none => (showError "Please select a file" s, none)
  | some [] => (showError "Please select a file" s, none)
  | some (f :: _) =>
    (setLoading false
      (match outcome with
       | FetchOutcome.thrown msg =>
         showError ("Network error: " ++ msg) (hideError (setLoading true s))
       | FetchOutcome.completed ok body =>
         if ok && body.success then
           displayResults body (hideError (setLoading true s))
         else
           showError (jsOrStr body.error "An error occurred during extraction")
             (hideError (setLoading true s))),
     some (f, bomType))

/-- Modelled from the spec: the initial page state (the document markup is
not part of src/) shows only the Upload section, with nothing selected and
the submit control enabled. -/
def initState : UIState :=
  { uploadDisplay := "block", resultsDisplay := "none", errorDisplay := "none",
    errorMessage := "", currentFiles := none,
    fileNameText := "Choose PDF file or drag & drop", hasFileClass := false,
    submitDisabled := false, btnTextDisplay := "block",
    btnLoaderDisplay := "none", totalItemsText := "", bomTypeText := "",
    documentTitleText := "", tableHTML := "", downloadJsonTarget := "",
    downloadCsvTarget := "" }

/-- The controller operations named by the visibility claim: file selection,
full submission, bare result display, bare error display, reset. -/
inductive Op where
  | fileSelect (files : List JFile) : Op
  | submit (bomType : String) (outcome : FetchOutcome) : Op
  | resultDisplay (body : ResponseBody) : Op
  | errorDisplay (message : String) : Op
  | reset : Op

/-- Apply one controller operation to the DOM state. -/
def applyOp (op : Op) (s : UIState) : UIState :=
  match op with
  | Op.fileSelect files => handleFileSelect files s
  | Op.submit bt oc => (submitHandler bt oc s).1
  | Op.resultDisplay body => displayResults body s
  | Op.errorDisplay m => showError m s
  | Op.reset => resetForm s

/-- A section is visible when its `style.display` is not `none`. -/
def isVisible (d : String) : Bool :=
  if d = "none" then false else true

/-- How many of the three sections are visible. -/
def visCount (s : UIState) : Nat :=
  (cond (isVisible s.uploadDisplay) 1 0)
    + (cond (isVisible s.resultsDisplay) 1 0)
    + (cond (isVisible s.errorDisplay) 1 0)

/-- Exactly one of the Upload, Results and Error sections is visible. -/
def exactlyOneVisible (s : UIState) : Bool :=
  visCount s == 1

/-- States reachable from the initial state by handler-level operations:
file selection, a full submission (which hides the error before any result
display), a direct error display, and reset. -/
inductive ReachableH : UIState → Prop where
  | init : ReachableH initState
  | fileSel (s : UIState) (files : List JFile) :
      ReachableH s → ReachableH (handleFileSelect files s)
  | submit (s : UIState) (bt : String) (oc : FetchOutcome) :
      ReachableH s → ReachableH (submitHandler bt oc s).1
  | errDisp (s : UIState) (m : String) :
      ReachableH s → ReachableH (showError m s)
  | reset (s : UIState) :
      ReachableH s → ReachableH (resetForm s)

end BomExtractor

namespace BomExtractor

theorem str_append_assoc (a b c : String) : a ++ b ++ c = a ++ (b ++ c) := by
  cases a with
  | mk la =>
    cases b with
    | mk lb =>
      cases c with
      | mk lc => exact congrArg String.mk (List.append_assoc la lb lc)

theorem str_append_empty (a : String) : a ++ "" = a := by
  cases a with
  | mk la => exact congrArg String.mk (List.append_nil la)

theorem foldl_append_eq {α : Type} (f : α → String) :
    ∀ (l : List α) (init : String),
      l.foldl (fun h x => h ++ f x) init = init ++ strConcat (l.map f) := by
  intro l
  induction l with
  | nil => intro init; exact (str_append_empty init).symm
  | cons x xs ih =>
    intro init
    have h1 : (x :: xs).foldl (fun h x => h ++ f x) init
        = xs.foldl (fun h x => h ++ f x) (init ++ f x) := rfl
    rw [h1, ih, str_append_assoc]
    rfl

theorem cell_fold_eq (it : Item) (keys : List String) (init : String) :
    keys.foldl
        (fun h2 k => h2 ++ ("<td>" ++ escapeHtml (cellValue it k) ++ "</td>"))
        init
      = init ++ strConcat (keys.map (renderCell it)) :=
  foldl_append_eq (renderCell it) keys init

theorem header_fold_eq (keys : List String) (init : String) :
    keys.foldl (fun h k => h ++ ("<th>" ++ formatHeader k ++ "</th>")) init
      = init ++ strConcat (keys.map renderHeaderCell) :=
  foldl_append_eq renderHeaderCell keys init

theorem row_fold_eq (keys : List String) (it : Item) (h : String) :
    (keys.foldl
        (fun h2 k => h2 ++ ("<td>" ++ escapeHtml (cellValue it k) ++ "</td>"))
        (h ++ "<tr>"))
      ++ "</tr>" = h ++ renderRow keys it := by
  rw [cell_fold_eq, str_append_assoc, str_append_assoc]
  rfl

theorem rows_fold_eq (keys : List String) :
    ∀ (items : List Item) (init : String),
      items.foldl
        (fun h it =>
          (keys.foldl
            (fun h2 k => h2 ++ ("<td>" ++ escapeHtml (cellValue it k) ++ "</td>"))
            (h ++ "<tr>"))
          ++ "</tr>")
        init
      = init ++ strConcat (items.map (renderRow keys)) := by
  intro items
  induction items with
  | nil => intro init; exact (str_append_empty init).symm
  | cons it rest ih =>
    intro init
    have h1 :
        (it :: rest).foldl
          (fun h it =>
            (keys.foldl
              (fun h2 k => h2 ++ ("<td>" ++ escapeHtml (cellValue it k) ++ "</td>"))
              (h ++ "<tr>"))
            ++ "</tr>")
          init
        = rest.foldl
            (fun h it =>
              (keys.foldl
                (fun h2 k => h2 ++ ("<td>" ++ escapeHtml (cellValue it k) ++ "</td>"))
                (h ++ "<tr>"))
              ++ "</tr>")
            ((keys.foldl
                (fun h2 k => h2 ++ ("<td>" ++ escapeHtml (cellValue it k) ++ "</td>"))
                (init ++ "<tr>"))
              ++ "</tr>") := rfl
    rw [h1, row_fold_eq, ih, str_append_assoc]
    rfl

theorem createTable_eq_tableHtml (it0 : Item) (rest : List Item) :
    createTable (it0 :: rest) = tableHtml (it0.map Prod.fst) (it0 :: rest) := by
  show ((it0 :: rest).foldl
      (fun h it =>
        ((it0.map Prod.fst).foldl
          (fun h2 k => h2 ++ ("<td>" ++ escapeHtml (cellValue it k) ++ "</td>"))
          (h ++ "<tr>"))
        ++ "</tr>")
      (((it0.map Prod.fst).foldl
          (fun h k => h ++ ("<th>" ++ formatHeader k ++ "</th>"))
          "<table><thead><tr>")
        ++ "</tr></thead><tbody>"))
    ++ "</tbody></table>" = _
  rw [header_fold_eq, rows_fold_eq]
  rfl

theorem escList_append (a b : List Char) :
    escList (a ++ b) = escList a ++ escList b := by
  simp [escList]

theorem escList_cons (c : Char) (l : List Char) :
    escList (c :: l) = escChar c ++ escList l := by
  simp [escList]

theorem lt_not_mem_escChar (c : Char) : ¬ ('<' ∈ escChar c) := by
  unfold escChar
  split
  · decide
  · split
    · decide
    · split
      · decide
      · rename_i h1 h2 h3
        intro hm
        rw [List.mem_singleton] at hm
        exact h2 hm.symm

theorem lt_not_mem_escList (l : List Char) : ¬ ('<' ∈ escList l) := by
  induction l with
  | nil => simp [escList]
  | cons c cs ih =>
    intro hm
    rw [escList_cons, List.mem_append] at hm
    rcases hm with hm | hm
    · exact lt_not_mem_escChar c hm
    · exact ih hm

theorem occursIn_mem {n h : List Char} (ho : occursIn n h) {c : Char}
    (hc : c ∈ n) : c ∈ h := by
  rcases ho with ⟨p, q, rfl⟩
  exact List.mem_append.mpr (Or.inl (List.mem_append.mpr (Or.inr hc)))

theorem occursIn_escList {n l : List Char} (ho : occursIn n l) :
    occursIn (escList n) (escList l) := by
  rcases ho with ⟨p, q, rfl⟩
  exact ⟨escList p, escList q, by rw [escList_append, escList_append]⟩

theorem jsCapitalize_eq (w : List Char) :
    (jsCharAt w 0).map Char.toUpper ++ jsSlice1 w = specCapitalize w := by
  cases w with
  | nil => rfl
  | cons c cs => rfl

theorem showError_exactlyOne (m : String) (s : UIState) :
    exactlyOneVisible (showError m s) = true := rfl

theorem resetForm_exactlyOne (s : UIState) :
    exactlyOneVisible (resetForm s) = true := rfl

theorem handleFileSelect_keepOne (files : List JFile) (s : UIState)
    (h : exactlyOneVisible s = true) :
    exactlyOneVisible (handleFileSelect files s) = true := by
  cases files with
  | nil => exact h
  | cons f fs =>
    simp only [handleFileSelect]
    split
    · exact h
    · exact showError_exactlyOne _ _

theorem submitHandler_exactlyOne (bt : String) (oc : FetchOutcome)
    (s : UIState) :
    exactlyOneVisible (submitHandler bt oc s).1 = true := by
  unfold submitHandler
  cases hs : s.currentFiles with
  | none =>
    exact showError_exactlyOne _ _
  | some fl =>
    cases fl with
    | nil => exact showError_exactlyOne _ _
    | cons f fs =>
      cases oc with
      | thrown m => rfl
      | completed ok body =>
        show exactlyOneVisible (setLoading false
            (if (ok && body.success) = true then
              displayResults body (hideError (setLoading true s))
            else
              showError (jsOrStr body.error "An error occurred during extraction")
                (hideError (setLoading true s)))) = true
        by_cases hc : (ok && body.success) = true
        · rw [if_pos hc]; exact rfl
        · rw [if_neg hc]; exact rfl

theorem displayResults_keepOne (b : ResponseBody) (s : UIState)
    (he : isVisible s.errorDisplay = false) :
    exactlyOneVisible (displayResults b s) = true := by
  show (((cond (isVisible "none") 1 0) + (cond (isVisible "block") 1 0))
      + (cond (isVisible s.errorDisplay) 1 0) == 1) = true
  rw [he]
  decide

theorem reachable_exactlyOne (s : UIState) (h : ReachableH s) :
    exactlyOneVisible s = true := by
  induction h with
  | init => decide
  | fileSel s files _ ih => exact handleFileSelect_keepOne files s ih
  | submit s bt oc _ _ => exact submitHandler_exactlyOne bt oc s
  | errDisp s m _ _ => exact showError_exactlyOne m s
  | reset s _ _ => exact resetForm_exactlyOne s

/-- C1: every cell rendered by createTable comes from the column keys of the
first record; a null or missing value renders as the placeholder "-", any
other value is stringified and HTML-escaped before insertion, and a value
containing "<script>" contributes only its escaped form, never raw markup. -/
theorem c1_cell_escaping :
    (∀ (it0 : Item) (rest : List Item),
        createTable (it0 :: rest) = tableHtml (it0.map Prod.fst) (it0 :: rest))
    ∧ (∀ (it : Item) (k : String),
        (lookup it k = none ∨ lookup it k = some JVal.null) →
          cellValue it k = "-")
    ∧ (∀ (it : Item) (k : String) (v : JVal),
        lookup it k = some v → v ≠ JVal.null → cellValue it k = jsString v)
    ∧ (∀ s : String, occursIn "<script>".toList s.toList →
        occursIn "&lt;script&gt;".toList (escapeHtml s).toList
          ∧ ¬ occursIn "<script>".toList (escapeHtml s).toList) := by
  refine ⟨createTable_eq_tableHtml, ?_, ?_, ?_⟩
  · intro it k h
    unfold cellValue
    rcases h with h | h <;> rw [h]
  · intro it k v h hv
    unfold cellValue
    rw [h]
    cases v with
    | null => exact absurd rfl hv
    | str s => rfl
    | num n => rfl
    | bool b => rfl
  · intro s ho
    constructor
    · have h2 := occursIn_escList ho
      have h3 : escList "<script>".toList = "&lt;script&gt;".toList := by decide
      rw [h3] at h2
      exact h2
    · intro hocc
      exact lt_not_mem_escList s.toList
        (occursIn_mem hocc (by decide : '<' ∈ "<script>".toList))

/-- C1 witness: the placeholder and escaping facts at concrete inputs. -/
theorem c1_cell_escaping_witness :
    cellValue [("a", JVal.null)] "a" = "-"
    ∧ (occursIn "&lt;script&gt;".toList (escapeHtml "x<script>y").toList
       ∧ ¬ occursIn "<script>".toList (escapeHtml "x<script>y").toList) :=
  ⟨c1_cell_escaping.2.1 [("a", JVal.null)] "a" (Or.inr rfl),
   c1_cell_escaping.2.2.2 "x<script>y" ⟨['x'], ['y'], by decide⟩⟩

/-- C2 counterexample: a bare result display after an error display leaves
both the Results and the Error sections visible, because displayResults
never touches the error section; so not every transition of the listed
operations preserves mutual exclusivity. -/
theorem c2_counterexample :
    exactlyOneVisible
        (applyOp (Op.errorDisplay "Please select a PDF file") initState) = true
    ∧ exactlyOneVisible
        (applyOp
          (Op.resultDisplay ⟨true, none, ⟨[], none, "simple", none⟩, ⟨"a", "b"⟩⟩)
          (applyOp (Op.errorDisplay "Please select a PDF file") initState))
        = false := by
  decide

/-- C2 amended: every operation other than a bare result display preserves
the exactly-one-visible invariant; a result display preserves it exactly
when the error section is hidden beforehand, which the full submission flow
guarantees; hence every state reachable by handler-level operations from
the initial state has exactly one visible section. -/
theorem c2_visibility :
    (∀ (s : UIState) (op : Op),
        (∀ b : ResponseBody, op ≠ Op.resultDisplay b) →
        exactlyOneVisible s = true → exactlyOneVisible (applyOp op s) = true)
    ∧ (∀ (s : UIState) (b : ResponseBody),
        isVisible s.errorDisplay = false → exactlyOneVisible s = true →
        exactlyOneVisible (applyOp (Op.resultDisplay b) s) = true)
    ∧ (∀ s : UIState, ReachableH s → exactlyOneVisible s = true) := by
  refine ⟨?_, ?_, reachable_exactlyOne⟩
  · intro s op hne h
    cases op with
    | fileSelect files => exact handleFileSelect_keepOne files s h
    | submit bt oc => exact submitHandler_exactlyOne bt oc s
    | resultDisplay b => exact absurd rfl (hne b)
    | errorDisplay m => exact showError_exactlyOne m s
    | reset => exact resetForm_exactlyOne s
  · intro s b he _
    exact displayResults_keepOne b s he

/-- C2 witness: preservation instances at the initial state. -/
theorem c2_visibility_witness :
    exactlyOneVisible (applyOp Op.reset initState) = true
    ∧ exactlyOneVisible
        (applyOp
          (Op.resultDisplay ⟨true, none, ⟨[], none, "simple", none⟩, ⟨"a", "b"⟩⟩)
          initState) = true :=
  ⟨c2_visibility.1 initState Op.reset (fun _ hb => Op.noConfusion hb) rfl,
   c2_visibility.2.1 initState ⟨true, none, ⟨[], none, "simple", none⟩, ⟨"a", "b"⟩⟩
     rfl rfl⟩

/-- C3 counterexample: with total_items explicitly present but zero and one
item in the list, the code displays 1 (the item-list length), not the
present total_items value 0, because it uses JavaScript number truthiness. -/
theorem c3_counterexample :
    (displayResults
        ⟨true, none, ⟨[[("part", JVal.str "R1")]], some 0, "simple", none⟩, ⟨"a", "a"⟩⟩
        initState).totalItemsText = "1"
    ∧ ¬ (displayResults
        ⟨true, none, ⟨[[("part", JVal.str "R1")]], some 0, "simple", none⟩, ⟨"a", "a"⟩⟩
        initState).totalItemsText = "0" := by
  decide

/-- C3 amended: the displayed count is total_items when present and nonzero
and the item-list length when absent or zero; the mode label is bom_type
uppercased; the title is document_title when present and non-empty and the
generic label otherwise. -/
theorem c3_summary_fields (b : ResponseBody) (s : UIState) :
    (∀ n : Nat, b.data.total_items = some n → ¬ n = 0 →
        (displayResults b s).totalItemsText = toString n)
    ∧ (b.data.total_items = none →
        (displayResults b s).totalItemsText = toString b.data.items.length)
    ∧ (b.data.total_items = some 0 →
        (displayResults b s).totalItemsText = toString b.data.items.length)
    ∧ (displayResults b s).bomTypeText = jsToUpper b.data.bom_type
    ∧ (∀ t : String, b.data.document_title = some t → ¬ t = "" →
        (displayResults b s).documentTitleText = t)
    ∧ ((b.data.document_title = none ∨ b.data.document_title = some "") →
        (displayResults b s).documentTitleText = "BOM Document") := by
  refine ⟨?_, ?_, ?_, rfl, ?_, ?_⟩
  · intro n hn hnz
    show toString (jsOrNat b.data.total_items b.data.items.length) = toString n
    rw [hn]
    simp only [jsOrNat]
    rw [if_neg hnz]
  · intro hn
    show toString (jsOrNat b.data.total_items b.data.items.length)
        = toString b.data.items.length
    rw [hn]
    rfl
  · intro hn
    show toString (jsOrNat b.data.total_items b.data.items.length)
        = toString b.data.items.length
    rw [hn]
    rfl
  · intro t ht htne
    show jsOrStr b.data.document_title "BOM Document" = t
    rw [ht]
    simp only [jsOrStr]
    rw [if_neg htne]
  · intro h
    show jsOrStr b.data.document_title "BOM Document" = "BOM Document"
    rcases h with h | h <;> rw [h] <;> rfl

/-- C3 witness: the amended summary fields at a concrete response. -/
theorem c3_summary_fields_witness :
    (displayResults
        ⟨true, none, ⟨[], some 5, "simple", some "My BOM"⟩, ⟨"a", "a"⟩⟩
        initState).totalItemsText = "5"
    ∧ (displayResults
        ⟨true, none, ⟨[], some 5, "simple", some "My BOM"⟩, ⟨"a", "a"⟩⟩
        initState).documentTitleText = "My BOM" :=
  ⟨(c3_summary_fields
      ⟨true, none, ⟨[], some 5, "simple", some "My BOM"⟩, ⟨"a", "a"⟩⟩
      initState).1 5 rfl (by decide),
   (c3_summary_fields
      ⟨true, none, ⟨[], some 5, "simple", some "My BOM"⟩, ⟨"a", "a"⟩⟩
      initState).2.2.2.2.1 "My BOM" rfl (by decide)⟩

/-- C4: submitting with no current selection surfaces the message and
issues no network request. -/
theorem c4_no_file_no_request (bt : String) (oc : FetchOutcome) (s : UIState)
    (h : s.currentFiles = none ∨ s.currentFiles = some []) :
    submitHandler bt oc s = (showError "Please select a file" s, none) := by
  unfold submitHandler
  rcases h with h | h <;> rw [h]

/-- C4 witness: at the initial state. -/
theorem c4_no_file_no_request_witness :
    submitHandler "simple" (FetchOutcome.thrown "boom") initState
      = (showError "Please select a file" initState, none) :=
  c4_no_file_no_request "simple" (FetchOutcome.thrown "boom") initState
    (Or.inl rfl)

/-- C5: every submission that passes the file guard, whatever its outcome,
ends with the loading sub-state exited: submit control enabled, label
visible, spinner hidden. -/
theorem c5_loading_always_cleared (bt : String) (oc : FetchOutcome)
    (s : UIState) (f : JFile) (fs : List JFile)
    (h : s.currentFiles = some (f :: fs)) :
    (submitHandler bt oc s).1.submitDisabled = false
    ∧ (submitHandler bt oc s).1.btnTextDisplay = "block"
    ∧ (submitHandler bt oc s).1.btnLoaderDisplay = "none" := by
  unfold submitHandler
  rw [h]
  exact ⟨rfl, rfl, rfl⟩

/-- C5 witness: after selecting a PDF, a thrown network error still clears
the loading sub-state. -/
theorem c5_loading_always_cleared_witness :
    (submitHandler "simple" (FetchOutcome.thrown "boom")
        (handleFileSelect [⟨"bom.pdf", "application/pdf"⟩] initState)).1.submitDisabled
      = false
    ∧ (submitHandler "simple" (FetchOutcome.thrown "boom")
        (handleFileSelect [⟨"bom.pdf", "application/pdf"⟩] initState)).1.btnTextDisplay
      = "block"
    ∧ (submitHandler "simple" (FetchOutcome.thrown "boom")
        (handleFileSelect [⟨"bom.pdf", "application/pdf"⟩] initState)).1.btnLoaderDisplay
      = "none" :=
  c5_loading_always_cleared "simple" (FetchOutcome.thrown "boom")
    (handleFileSelect [⟨"bom.pdf", "application/pdf"⟩] initState)
    ⟨"bom.pdf", "application/pdf"⟩ [] rfl

/-- C6 counterexample: a completed failure response whose error field is
present but empty displays the generic message, not the present error
field, because the code uses JavaScript string truthiness. -/
theorem c6_counterexample :
    (submitHandler "simple"
        (FetchOutcome.completed true
          ⟨false, some "", ⟨[], none, "simple", none⟩, ⟨"a", "b"⟩⟩)
        (handleFileSelect [⟨"bom.pdf", "application/pdf"⟩] initState)).1.errorMessage
      = "An error occurred during extraction"
    ∧ ¬ (submitHandler "simple"
        (FetchOutcome.completed true
          ⟨false, some "", ⟨[], none, "simple", none⟩, ⟨"a", "b"⟩⟩)
        (handleFileSelect [⟨"bom.pdf", "application/pdf"⟩] initState)).1.errorMessage
      = "" := by
  decide

/-- C6 amended: with a file selected, a completed response transitions to
Results exactly when the HTTP ok flag and the body success flag are both
true; otherwise it transitions to Error displaying the body error field
when present and non-empty, else the generic message. -/
theorem c6_response_dispatch (bt : String) (ok : Bool) (body : ResponseBody)
    (s : UIState) (f : JFile) (fs : List JFile)
    (h : s.currentFiles = some (f :: fs)) :
    ((ok && body.success) = true →
        (submitHandler bt (FetchOutcome.completed ok body) s).1.resultsDisplay = "block"
        ∧ (submitHandler bt (FetchOutcome.completed ok body) s).1.uploadDisplay = "none"
        ∧ (submitHandler bt (FetchOutcome.completed ok body) s).1.errorDisplay = "none")
    ∧ ((ok && body.success) = false →
        (submitHandler bt (FetchOutcome.completed ok body) s).1.errorDisplay = "block"
        ∧ (submitHandler bt (FetchOutcome.completed ok body) s).1.uploadDisplay = "none"
        ∧ (submitHandler bt (FetchOutcome.completed ok body) s).1.resultsDisplay = "none"
        ∧ (submitHandler bt (FetchOutcome.completed ok body) s).1.errorMessage
            = jsOrStr body.error "An error occurred during extraction"
        ∧ (∀ e : String, body.error = some e → ¬ e = "" →
            (submitHandler bt (FetchOutcome.completed ok body) s).1.errorMessage = e)
        ∧ ((body.error = none ∨ body.error = some "") →
            (submitHandler bt (FetchOutcome.completed ok body) s).1.errorMessage
              = "An error occurred during extraction")) := by
  have hred : (submitHandler bt (FetchOutcome.completed ok body) s).1
      = setLoading false
          (if (ok && body.success) = true then
            displayResults body (hideError (setLoading true s))
          else
            showError (jsOrStr body.error "An error occurred during extraction")
              (hideError (setLoading true s))) := by
    unfold submitHandler
    rw [h]
  rw [hred]
  constructor
  · intro hok
    rw [if_pos hok]
    exact ⟨rfl, rfl, rfl⟩
  · intro hfalse
    have hneg : ¬ ((ok && body.success) = true) := by
      rw [hfalse]
      exact Bool.false_ne_true
    rw [if_neg hneg]
    refine ⟨rfl, rfl, rfl, rfl, ?_, ?_⟩
    · intro e he hne
      show jsOrStr body.error "An error occurred during extraction" = e
      rw [he]
      simp only [jsOrStr]
      rw [if_neg hne]
    · intro hor
      show jsOrStr body.error "An error occurred during extraction"
          = "An error occurred during extraction"
      rcases hor with h2 | h2 <;> rw [h2] <;> rfl

/-- C6 witness: a successful completed response shows exactly the Results
section. -/
theorem c6_response_dispatch_witness :
    (submitHandler "simple"
        (FetchOutcome.completed true
          ⟨true, none, ⟨[], none, "simple", none⟩, ⟨"a", "b"⟩⟩)
        (handleFileSelect [⟨"bom.pdf", "application/pdf"⟩] initState)).1.resultsDisplay
      = "block"
    ∧ (submitHandler "simple"
        (FetchOutcome.completed true
          ⟨true, none, ⟨[], none, "simple", none⟩, ⟨"a", "b"⟩⟩)
        (handleFileSelect [⟨"bom.pdf", "application/pdf"⟩] initState)).1.uploadDisplay
      = "none"
    ∧ (submitHandler "simple"
        (FetchOutcome.completed true
          ⟨true, none, ⟨[], none, "simple", none⟩, ⟨"a", "b"⟩⟩)
        (handleFileSelect [⟨"bom.pdf", "application/pdf"⟩] initState)).1.errorDisplay
      = "none" :=
  (c6_response_dispatch "simple" true
      ⟨true, none, ⟨[], none, "simple", none⟩, ⟨"a", "b"⟩⟩
      (handleFileSelect [⟨"bom.pdf", "application/pdf"⟩] initState)
      ⟨"bom.pdf", "application/pdf"⟩ [] rfl).1 rfl

/-- C7 counterexample: with first record key a and second record key b, the
second row renders the single cell "-" for column a (one cell, same column
set as the first record); its own key b and value 2 appear nowhere, so rows
do not reflect their own keys and the columns are not ragged. -/
theorem c7_counterexample :
    createTable [[("a", JVal.num 1)], [("b", JVal.num 2)]]
      = "<table><thead><tr><th>A</th></tr></thead><tbody><tr><td>1</td></tr><tr><td>-</td></tr></tbody></table>"
    ∧ ¬ ('2' ∈ (createTable [[("a", JVal.num 1)], [("b", JVal.num 2)]]).toList) := by
  decide

/-- C7 amended: the column set and order come from the first record only,
and every row renders exactly that column set (one cell per first-record
key, regardless of the keys of the row itself). -/
theorem c7_first_record_columns (it0 : Item) (rest : List Item) :
    createTable (it0 :: rest) = tableHtml (it0.map Prod.fst) (it0 :: rest)
    ∧ (∀ it : Item, ((it0.map Prod.fst).map (renderCell it)).length = it0.length) := by
  refine ⟨createTable_eq_tableHtml it0 rest, ?_⟩
  intro it
  rw [List.length_map, List.length_map]

/-- C8: a selection whose first file is not a PDF surfaces the error-state
message and leaves the prior selection, the displayed file name and the
has-file marker unchanged. -/
theorem c8_nonpdf_preserves_selection (f : JFile) (fs : List JFile)
    (s : UIState) (h : ¬ f.type = "application/pdf") :
    handleFileSelect (f :: fs) s = showError "Please select a PDF file" s
    ∧ (handleFileSelect (f :: fs) s).currentFiles = s.currentFiles
    ∧ (handleFileSelect (f :: fs) s).fileNameText = s.fileNameText
    ∧ (handleFileSelect (f :: fs) s).hasFileClass = s.hasFileClass
    ∧ (handleFileSelect (f :: fs) s).errorDisplay = "block"
    ∧ (handleFileSelect (f :: fs) s).errorMessage = "Please select a PDF file" := by
  have hred : handleFileSelect (f :: fs) s = showError "Please select a PDF file" s := by
    show (if f.type = "application/pdf" then
        { s with currentFiles := some (f :: fs), fileNameText := f.name,
                 hasFileClass := true }
      else showError "Please select a PDF file" s)
      = showError "Please select a PDF file" s
    rw [if_neg h]
  rw [hred]
  exact ⟨rfl, rfl, rfl, rfl, rfl, rfl⟩

/-- C8 witness: a plain-text file is rejected at the initial state. -/
theorem c8_nonpdf_preserves_selection_witness :
    handleFileSelect [⟨"a.txt", "text/plain"⟩] initState
      = showError "Please select a PDF file" initState :=
  (c8_nonpdf_preserves_selection ⟨"a.txt", "text/plain"⟩ [] initState
    (by decide)).1

/-- C9: formatHeader equals the pure function that splits on underscores,
capitalises the first letter of each segment and joins with single spaces,
and maps the three documented examples accordingly. -/
theorem c9_formatHeader_pure :
    (∀ key : String, formatHeader key = specFormatHeader key)
    ∧ formatHeader "unit_cost" = "Unit Cost"
    ∧ formatHeader "qty" = "Qty"
    ∧ formatHeader "document_title" = "Document Title" := by
  refine ⟨?_, by decide, by decide, by decide⟩
  intro key
  simp only [formatHeader, specFormatHeader, jsCapitalize_eq]

/-- C10: header cells are inserted without HTML-escaping: a first-record
key containing markup appears raw inside its th element, while the cell
value is escaped. -/
theorem c10_headers_unescaped :
    createTable [[("<script>", JVal.str "<b>bold</b>")]]
      = "<table><thead><tr><th><script></th></tr></thead><tbody><tr><td>&lt;b&gt;bold&lt;/b&gt;</td></tr></tbody></table>"
    ∧ occursIn "<th><script></th>".toList
        (createTable [[("<script>", JVal.str "<b>bold</b>")]]).toList :=
  ⟨by decide,
   "<table><thead><tr>".toList,
   "</tr></thead><tbody><tr><td>&lt;b&gt;bold&lt;/b&gt;</td></tr></tbody></table>".toList,
   by decide⟩

end BomExtractor
